import Mathlib

/-!
Verification development for the H2Ok map client (`src/src/App.jsx`).

The file gives a shallow embedding of the filter-driven map
synchronization engine of `MapPage` and the secondary pages:

* `FilterCriteria` and `toQueryParameters` embed the four filter state
  variables (`category`, `hasHot`, `hasCold`, `query`, App.jsx lines
  69-72) and the query-string construction inside `loadPartners`
  (lines 80-84).
* `MapState`, `FetchOutcome`, `issueQuery`, `applyFetchOutcome` and
  `loadPartners` embed the fetch lifecycle of `loadPartners`
  (lines 76-93): `setLoading(true)`/`setError('')` at issue time, then
  on completion either `setPartners(data.items || [])` or
  `setError('Failed to load points')`, and `setLoading(false)`.
* `QueryEvent`, `stepEvent` and `runEvents` embed interleavings of
  several in-flight `loadPartners` calls: each continuation applies its
  own response at arrival time, with no request token.
* `PointRecord`, `MarkerDescriptor`, `presentOne` and `present` embed
  the `markers` memo (lines 106-119) that maps fetched records to
  rendered marker descriptors.
* `UiEvent` and `uiStep` embed the re-query policy: the effect with
  dependencies `[category, hasHot, hasCold]` (lines 95-97), the search
  button (line 128) and the text input (line 127).
* `Viewport`, `GeoOutcome` and `onLocate` embed the geolocation handler
  (lines 99-104) composed with the `Recenter` component (lines 55-61).
-/

/-- Filter state of `MapPage`: the four `useState` hooks at App.jsx
lines 69-72. `category` ranges over the keys of the `categories` table
(`all`, `shop`, `cafe`, `university`, `sports`). -/
structure FilterCriteria where
  category : String
  hasHot : Bool
  hasCold : Bool
  query : String
deriving DecidableEq

/-- The initial filter state of `MapPage` (App.jsx lines 69-72):
`category='all'`, `hasHot=false`, `hasCold=true`, `query=''`. -/
def defaultCriteria : FilterCriteria :=
  { category := "all", hasHot := false, hasCold := true, query := "" }

/-- Query-string construction inside `loadPartners` (App.jsx lines
80-84): `params.set('category', category)` when `category !== 'all'`,
`params.set('has_hot', 'true')` when `hasHot`, `params.set('has_cold',
'true')` when `hasCold`, `params.set('q', query)` when `query` is
truthy (a non-empty string). `URLSearchParams` keeps insertion order,
so the result is the ordered list of name-value pairs. -/
def toQueryParameters (c : FilterCriteria) : List (String × String) :=
  (if c.category ≠ "all" then [("category", c.category)] else []) ++
  (if c.hasHot then [("has_hot", "true")] else []) ++
  (if c.hasCold then [("has_cold", "true")] else []) ++
  (if c.query ≠ "" then [("q", c.query)] else [])

/-- A point record as consumed by `MapPage`: one element of the
response's `items` list (fields read at App.jsx lines 107-115).
Coordinates are modelled as rationals. `open_hours` is optional in the
response, hence `Option String`. -/
structure PointRecord where
  id : String
  name : String
  address : String
  latitude : Rat
  longitude : Rat
  open_hours : Option String
  has_hot : Bool
  has_cold : Bool
  access_type : String
  is_new : Bool
deriving DecidableEq

/-- The body of a point-query HTTP response after `res.json()`
(App.jsx line 86): either `res.json()` itself rejects (`malformed`),
or it yields a JSON value. A JSON value is the literal `null` (reading
`.items` on it throws), an object whose `items` key holds a list of
point records when present and truthy (`obj`), or any other JSON value
(number, string, boolean, array), on which `.items` reads as
`undefined` (`other`). -/
inductive JsonBody where
  | malformed
  | null
  | obj (items : Option (List PointRecord))
  | other
deriving DecidableEq

/-- Outcome of the `fetch` call in `loadPartners` (App.jsx line 85):
either the promise rejects (transport failure) or a response with some
HTTP status and a body arrives. The code never reads `res.ok` or
`res.status`. -/
inductive FetchOutcome where
  | networkError
  | response (status : Nat) (body : JsonBody)
deriving DecidableEq

/-- The `MapPage` state touched by `loadPartners`: `partners`,
`loading` and `error` (App.jsx lines 64-66). -/
structure MapState where
  partners : List PointRecord
  loading : Bool
  error : String
deriving DecidableEq

/-- The state of `MapPage` on mount (App.jsx lines 64-66):
`partners=[]`, `loading=true`, `error=''`. -/
def initialMapState : MapState :=
  { partners := [], loading := true, error := "" }

/-- The synchronous prefix of `loadPartners` (App.jsx lines 77-78):
`setLoading(true)` and `setError('')`. -/
def issueQuery (s : MapState) : MapState :=
  { s with loading := true, error := "" }

/-- The continuation of `loadPartners` after the awaits (App.jsx lines
85-92), applied to the state current at arrival time. On a network
failure or a body on which decoding throws (`res.json()` rejecting, or
reading `.items` of `null`), the catch block runs `setError('Failed to
load points')` and `partners` is untouched. On any other response the
code runs `setPartners(data.items || [])`, ignoring the HTTP status;
an absent (or falsy) `items` yields the empty list. The `finally`
block runs `setLoading(false)` on every path. -/
def applyFetchOutcome (s : MapState) (o : FetchOutcome) : MapState :=
  match o with
  | .networkError => { s with error := "Failed to load points", loading := false }
  | .response _ body =>
    match body with
    | .malformed => { s with error := "Failed to load points", loading := false }
    | .null => { s with error := "Failed to load points", loading := false }
    | .obj items => { s with partners := items.getD [], loading := false }
    | .other => { s with partners := [], loading := false }

/-- One complete `loadPartners` call (App.jsx lines 76-93) with no
other query interleaved: the synchronous prefix followed by the
continuation for the outcome `o`. -/
def loadPartners (s : MapState) (o : FetchOutcome) : MapState :=
  applyFetchOutcome (issueQuery s) o

/-- Whether the inline error element renders (App.jsx line 143:
`{error && <div ...>{error}</div>}`): exactly when `error` is a
non-empty string. -/
def errorVisible (s : MapState) : Bool :=
  s.error ≠ ""

/-- An event of the query lifecycle with several calls in flight:
`issue` is a new `loadPartners` call reaching its awaits (its request
is labelled by issue order), and `resolve reqId o` is the continuation
of request `reqId` running when its outcome `o` arrives. The code
carries no request token, so the continuation does not consult
`reqId`. -/
inductive QueryEvent where
  | issue
  | resolve (reqId : Nat) (o : FetchOutcome)

/-- Effect of one `QueryEvent` on the page state. -/
def stepEvent (s : MapState) : QueryEvent → MapState
  | .issue => issueQuery s
  | .resolve _ o => applyFetchOutcome s o

/-- Runs a sequence of query-lifecycle events from a starting state.
The execution model runs at most one state-mutating continuation at a
time, so an interleaving is a list of events. -/
def runEvents : MapState → List QueryEvent → MapState
  | s, [] => s
  | s, e :: es => runEvents (stepEvent s e) es

/-- The renderable content of one `<Marker>` produced by the `markers`
memo (App.jsx lines 106-119): the React `key`, the marker `position`,
the popup title line (name plus the conditional `new` badge), the
remaining popup text lines in order, and the directions link `href`. -/
structure MarkerDescriptor where
  key : String
  position : Rat × Rat
  titleLine : String
  detailLines : List String
  directionsHref : String
deriving DecidableEq

/-- The line `Hours: ...` (App.jsx line 112) renders only when
`p.open_hours` is truthy: present and a non-empty string. -/
def hoursLines (p : PointRecord) : List String :=
  match p.open_hours with
  | some h => if h ≠ "" then ["Hours: " ++ h] else []
  | none => []

/-- The water line of the popup (App.jsx line 113):
`Water: {p.has_cold ? 'cold' : ''} {p.has_hot ? '/ hot' : ''}` — the
`<div>` is emitted unconditionally; only the two fragments depend on
the flags, each false flag contributing the empty string. -/
def waterLine (p : PointRecord) : String :=
  "Water: " ++ (if p.has_cold then "cold" else "") ++ " " ++
    (if p.has_hot then "/ hot" else "")

/-- The marker built from one record by the `markers` memo (App.jsx
lines 106-119): key `p.id`, position `[p.latitude, p.longitude]`,
title `{p.name} {p.is_new && 'new'}`, then the address line, the
conditional hours line, the unconditional water line, the access line
(`free` when `access_type === 'free'`, otherwise `ask staff`), and the
Google-Maps directions link with `destination=<lat>,<lon>`. -/
def presentOne (p : PointRecord) : MarkerDescriptor :=
  { key := p.id
    position := (p.latitude, p.longitude)
    titleLine := p.name ++ (if p.is_new then " new" else "")
    detailLines :=
      [p.address] ++ hoursLines p ++ [waterLine p] ++
        ["Access: " ++ (if p.access_type = "free" then "free" else "ask staff")]
    directionsHref :=
      "https://www.google.com/maps/dir/?api=1&destination=" ++
        toString p.latitude ++ "," ++ toString p.longitude }

/-- The `markers` memo (App.jsx line 106): `partners.map(p => ...)`,
one descriptor per record, in order. -/
def present (records : List PointRecord) : List MarkerDescriptor :=
  records.map presentOne

/-- A user interaction with the filter controls of `MapPage`:
clicking a category button (line 134), toggling a checkbox (lines
139-140), editing the text input (line 127), or clicking the Search
button (line 128). -/
inductive UiEvent where
  | setCategory (c : String)
  | setHasHot (b : Bool)
  | setHasCold (b : Bool)
  | setQuery (q : String)
  | searchClick

/-- Effect of one interaction on the filter state, paired with the
criteria of the query it issues, if any. The effect at App.jsx lines
95-97 has dependency list `[category, hasHot, hasCold]`, so it re-runs
`loadPartners` exactly when one of those three values changed (React
bails out when the new value equals the old); `query` is not a
dependency, so text edits issue nothing. The Search button (line 128)
calls `loadPartners` directly with the current state. -/
def uiStep (s : FilterCriteria) : UiEvent → FilterCriteria × Option FilterCriteria
  | .setCategory c =>
    let s' : FilterCriteria := { s with category := c }
    (s', if c = s.category then none else some s')
  | .setHasHot b =>
    let s' : FilterCriteria := { s with hasHot := b }
    (s', if b = s.hasHot then none else some s')
  | .setHasCold b =>
    let s' : FilterCriteria := { s with hasCold := b }
    (s', if b = s.hasCold then none else some s')
  | .setQuery q => ({ s with query := q }, none)
  | .searchClick => (s, some s)

/-- Map viewport: the `center` state of `MapPage` (App.jsx line 68)
together with the zoom last applied to the map surface. -/
structure Viewport where
  center : Rat × Rat
  zoom : Nat
deriving DecidableEq

/-- The zoom `Recenter` passes to `map.setView` (App.jsx line 58). -/
def recenterZoom : Nat := 13

/-- Outcome of one `onLocate` click (App.jsx lines 99-104):
`navigator.geolocation` absent (`unavailable`), `getCurrentPosition`
never invoking the success callback (denied or failed — no error
callback is registered), or a position. -/
inductive GeoOutcome where
  | unavailable
  | denied
  | success (lat lon : Rat)

/-- Effect of one `onLocate` click on the viewport and the page error
string. On success, `setCenter([lat, lon])` runs and the `Recenter`
effect (App.jsx lines 55-61) then calls `map.setView(center, 13)`;
on `unavailable` the handler returns at once, and on `denied` the
success callback never runs — nothing is written on either path, and
`setError` is never called by this handler. -/
def onLocate (v : Viewport) (err : String) : GeoOutcome → Viewport × String
  | .success lat lon => ({ center := (lat, lon), zoom := recenterZoom }, err)
  | .unavailable => (v, err)
  | .denied => (v, err)

/-- A sample point record: cold water at a free-access shop. -/
def recA : PointRecord :=
  { id := "a", name := "Alpha", address := "1 First St", latitude := 1, longitude := 2,
    open_hours := none, has_hot := false, has_cold := true, access_type := "free",
    is_new := false }

/-- A second sample point record, distinct from `recA`. -/
def recB : PointRecord :=
  { id := "b", name := "Beta", address := "2 Second St", latitude := 3, longitude := 4,
    open_hours := some "9-18", has_hot := true, has_cold := true, access_type := "ask_staff",
    is_new := true }

/-- A sample point record with neither cold nor hot water. -/
def recNoWater : PointRecord :=
  { id := "n", name := "Dry", address := "9 Dry Rd", latitude := 5, longitude := 6,
    open_hours := none, has_hot := false, has_cold := false, access_type := "ask_staff",
    is_new := false }

/-- A page state that already displays `recA` with no error shown. -/
def statePartnersA : MapState :=
  { partners := [recA], loading := false, error := "" }

/-- C1: the code evaluated at the failing interleaving. Query A (request 0)
is issued, query B (request 1) is issued before A resolves, B's response
(`[recB]`) arrives first, then A's response (`[recA]`) arrives. Because no
request token is compared at apply-time, A's stale continuation overwrites
the display: the final point set is A's result, not B's — the spec's
last-issued-wins guarantee does not hold in the code. -/
theorem lastArrivedOverwritesNewerQuery :
    (runEvents initialMapState
      [QueryEvent.issue, QueryEvent.issue,
        QueryEvent.resolve 1 (FetchOutcome.response 200 (JsonBody.obj (some [recB]))),
        QueryEvent.resolve 0 (FetchOutcome.response 200 (JsonBody.obj (some [recA])))]).partners
        = [recA] ∧ [recA] ≠ [recB] := by
  constructor
  · rfl
  · decide

/-- C2 counterexample: serializing the default criteria does not yield an
empty parameter set — the defaults have `hasCold = true`, so the result is
the single pair `has_cold=true`. -/
theorem defaultCriteriaParamsNotEmpty :
    toQueryParameters defaultCriteria = [("has_cold", "true")] ∧
      toQueryParameters defaultCriteria ≠ [] := by
  constructor
  · rfl
  · decide

/-- C2 (amended): serializing the default criteria (`category='all'`,
`hasCold=true`, `hasHot=false`, empty query) yields exactly the single
parameter `has_cold=true`. -/
theorem defaultCriteriaParamsExactlyHasCold :
    toQueryParameters defaultCriteria = [("has_cold", "true")] := rfl

/-- C3: `toQueryParameters` includes `category=<value>` exactly when the
category is not `all` (and only with that value), `has_hot=true` exactly
when `hasHot`, `has_cold=true` exactly when `hasCold`, `q=<text>` exactly
when the text is non-empty, and every emitted parameter is one of those
four names. -/
theorem toQueryParameters_characterization (c : FilterCriteria) :
    (("category", c.category) ∈ toQueryParameters c ↔ c.category ≠ "all") ∧
    (∀ v, ("category", v) ∈ toQueryParameters c → v = c.category) ∧
    (("has_hot", "true") ∈ toQueryParameters c ↔ c.hasHot = true) ∧
    (("has_cold", "true") ∈ toQueryParameters c ↔ c.hasCold = true) ∧
    (("q", c.query) ∈ toQueryParameters c ↔ c.query ≠ "") ∧
    (∀ p ∈ toQueryParameters c,
      p.1 = "category" ∨ p.1 = "has_hot" ∨ p.1 = "has_cold" ∨ p.1 = "q") := by
  unfold toQueryParameters
  refine ⟨?_, ?_, ?_, ?_, ?_, ?_⟩ <;> split_ifs <;> simp_all

/-- C3 witness: the characterization applied to the concrete criteria
`⟨shop, hot, no cold, "water"⟩` and the concrete emitted pair `q=water`. -/
theorem toQueryParameters_characterization_witness :
    ("q", "water").1 = "category" ∨ ("q", "water").1 = "has_hot" ∨
      ("q", "water").1 = "has_cold" ∨ ("q", "water").1 = "q" :=
  (toQueryParameters_characterization ⟨"shop", true, false, "water"⟩).2.2.2.2.2
    ("q", "water") (by decide)

/-- C4 counterexample: a criteria value with `category=shop` and
`hasHot=true` whose serialization does contain `has_cold` — the claim
quantifies over every such value, but `hasCold` is independent and, when
true, emits `has_cold=true`. -/
theorem shopHotWithColdEmitsHasCold :
    ("has_cold", "true") ∈ toQueryParameters ⟨"shop", true, true, ""⟩ := by
  decide

/-- C4 (amended): for criteria with `category=shop`, `hasHot=true`,
`hasCold=false` and empty query text, the serialized parameters are
exactly `category=shop` and `has_hot=true`, in that order. -/
theorem shopHotSerialization (c : FilterCriteria) (hcat : c.category = "shop")
    (hhot : c.hasHot = true) (hcold : c.hasCold = false) (hq : c.query = "") :
    toQueryParameters c = [("category", "shop"), ("has_hot", "true")] := by
  cases c with
  | mk cat hot cold q =>
    simp only at hcat hhot hcold hq
    subst hcat; subst hhot; subst hcold; subst hq
    decide

/-- C4 witness: the amended serialization at the concrete criteria
`⟨shop, hot, no cold, empty⟩`. -/
theorem shopHotSerialization_witness :
    toQueryParameters ⟨"shop", true, false, ""⟩
      = [("category", "shop"), ("has_hot", "true")] :=
  shopHotSerialization ⟨"shop", true, false, ""⟩ rfl rfl rfl rfl

/-- C5: a failed point query — transport failure or a response whose body
cannot be decoded — leaves the displayed point set unchanged, sets the
error string to the inline message `Failed to load points`, and makes the
inline error element visible. -/
theorem queryFailureShowsErrorKeepsPartners (s : MapState) (status : Nat) :
    (loadPartners s FetchOutcome.networkError).partners = s.partners ∧
    (loadPartners s FetchOutcome.networkError).error = "Failed to load points" ∧
    errorVisible (loadPartners s FetchOutcome.networkError) = true ∧
    (loadPartners s (FetchOutcome.response status JsonBody.malformed)).partners = s.partners ∧
    (loadPartners s (FetchOutcome.response status JsonBody.malformed)).error
      = "Failed to load points" ∧
    errorVisible (loadPartners s (FetchOutcome.response status JsonBody.malformed)) = true :=
  ⟨rfl, rfl, rfl, rfl, rfl, rfl⟩

/-- C6 counterexample: for a record with `has_cold=false` and
`has_hot=false`, the popup's detail block still contains a water-type
line — the `<div>` renders unconditionally as `Water:` followed by two
empty fragments, it is not omitted. -/
theorem bothFalseStillRendersWaterLine :
    recNoWater.has_cold = false ∧ recNoWater.has_hot = false ∧
      "Water:  " ∈ (presentOne recNoWater).detailLines := by
  refine ⟨rfl, rfl, ?_⟩
  decide

/-- C6 (amended): for every record with both water flags false, the
water-type line is still rendered, with both type fragments empty (the
text `Water:` followed by the two blanks), rather than omitted. -/
theorem bothFalseWaterLineEmptyFragments (p : PointRecord) (hc : p.has_cold = false)
    (hh : p.has_hot = false) :
    waterLine p = "Water:  " ∧ "Water:  " ∈ (presentOne p).detailLines := by
  have hw : waterLine p = "Water:  " := by
    unfold waterLine
    rw [hc, hh]
    rfl
  refine ⟨hw, ?_⟩
  simp [presentOne, hw]

/-- C6 witness: the amended statement at the concrete record with both
flags false. -/
theorem bothFalseWaterLine_witness :
    waterLine recNoWater = "Water:  " ∧
      "Water:  " ∈ (presentOne recNoWater).detailLines :=
  bothFalseWaterLineEmptyFragments recNoWater rfl rfl

/-- C7: presenting records as marker descriptors is pure, deterministic
and order-preserving — two calls on the same list are equal, the output
has the input's length, the i-th descriptor is the presentation of the
i-th record, and its identity key is that record's `id`. -/
theorem present_deterministic_orderPreserving (records : List PointRecord) :
    present records = present records ∧
    (present records).length = records.length ∧
    (∀ i : Nat, (present records).get? i = (records.get? i).map presentOne) ∧
    (∀ i : Nat, ((present records).get? i).map MarkerDescriptor.key
      = (records.get? i).map PointRecord.id) := by
  refine ⟨rfl, by simp [present], ?_, ?_⟩
  · intro i
    simp [present]
  · intro i
    simp only [present, List.get?_eq_getElem?, List.getElem?_map, Option.map_map]
    cases records[i]? <;> rfl

/-- C8: changing the category or either checkbox to a new value issues an
immediate re-query with the updated criteria; editing the free text never
issues a query; the Search action issues a query with the current
criteria unchanged. -/
theorem requeryPolicy (s : FilterCriteria) :
    (∀ c, c ≠ s.category →
      uiStep s (UiEvent.setCategory c)
        = ({ s with category := c }, some { s with category := c })) ∧
    (∀ b, b ≠ s.hasHot →
      uiStep s (UiEvent.setHasHot b)
        = ({ s with hasHot := b }, some { s with hasHot := b })) ∧
    (∀ b, b ≠ s.hasCold →
      uiStep s (UiEvent.setHasCold b)
        = ({ s with hasCold := b }, some { s with hasCold := b })) ∧
    (∀ q, uiStep s (UiEvent.setQuery q) = ({ s with query := q }, none)) ∧
    uiStep s UiEvent.searchClick = (s, some s) := by
  refine ⟨?_, ?_, ?_, fun q => rfl, rfl⟩ <;>
    · intro x hx
      simp [uiStep, hx]

/-- C8 witness: switching the default criteria's category to `cafe`
issues a query with the new criteria. -/
theorem requeryPolicy_witness :
    uiStep defaultCriteria (UiEvent.setCategory "cafe")
      = ({ defaultCriteria with category := "cafe" },
          some { defaultCriteria with category := "cafe" }) :=
  (requeryPolicy defaultCriteria).1 "cafe" (by decide)

/-- C9: a successful geolocation result recenters the viewport on the
returned coordinates at the fixed recenter zoom 13, and an unavailable or
failed geolocation leaves the viewport and the error string unchanged. -/
theorem geolocationViewportPolicy (v : Viewport) (err : String) (lat lon : Rat) :
    onLocate v err (GeoOutcome.success lat lon)
      = ({ center := (lat, lon), zoom := recenterZoom }, err) ∧
    (onLocate v err (GeoOutcome.success lat lon)).1.zoom = 13 ∧
    onLocate v err GeoOutcome.unavailable = (v, err) ∧
    onLocate v err GeoOutcome.denied = (v, err) :=
  ⟨rfl, rfl, rfl, rfl⟩

/-- C10 counterexample: a 200 response whose body is the JSON literal
`null` parses as JSON, yet the query is reported as an error (reading
`.items` of `null` throws into the catch block) and the displayed set is
left unchanged — so not every JSON-parsing body is treated as success. -/
theorem jsonNullBodyReportedAsError :
    (loadPartners statePartnersA (FetchOutcome.response 200 JsonBody.null)).error
      = "Failed to load points" ∧
    (loadPartners statePartnersA (FetchOutcome.response 200 JsonBody.null)).partners
      = [recA] :=
  ⟨rfl, rfl⟩

/-- C10 (amended): every response whose body parses as JSON to anything
other than `null` is treated as success regardless of the HTTP status
code — the displayed set is wholly replaced by the `items` list (empty
when `items` is absent, or when the value is not an object) and no error
is shown. -/
theorem jsonBodySuccessIgnoresStatus (s : MapState) (status : Nat)
    (items : Option (List PointRecord)) :
    (loadPartners s (FetchOutcome.response status (JsonBody.obj items))).partners
      = items.getD [] ∧
    (loadPartners s (FetchOutcome.response status (JsonBody.obj items))).error = "" ∧
    errorVisible (loadPartners s (FetchOutcome.response status (JsonBody.obj items)))
      = false ∧
    (loadPartners s (FetchOutcome.response status JsonBody.other)).partners = [] ∧
    (loadPartners s (FetchOutcome.response status JsonBody.other)).error = "" :=
  ⟨rfl, rfl, rfl, rfl, rfl⟩
